import Mathlib

/-!
# Verification of the livox_lidar_rust point-cloud codec core

Shallow embedding of the codec / transform pipeline found in
`src/bin/bev_pub.rs` and `src/bin/livox_scan2.rs`:

* `LidarPoint.from_bytes`  — decode one 26-byte record (RecordCodec.decode);
* `BevPoint.to_bytes`      — encode one record (RecordCodec.encode);
* `parse_pointcloud2`      — frame decoding loop (FrameDecoder.decode_frame);
* the z-window filter+map of `process_and_publish_bev` (BevProjector.project);
* `create_bev_pointcloud2` — frame encoding (FrameEncoder.encode_frame);
* the statistics block of `print_point_cloud_summary` (SummaryReporter).

Machine floats (`f32`, `f64`) are modelled by their bit patterns as `Nat`
values (below `2^32` resp. `2^64`): the codec never performs float arithmetic,
it only transmutes bytes to floats and back (`from_le_bytes` / `to_le_bytes`,
which are exact bit-level inverses in Rust), compares `f32` values against two
literals, and folds `min`/`max`.  IEEE-754 comparison, `f32::min` and
`f32::max` are therefore defined directly on the bit patterns.  Byte buffers
are `List Nat` with every element below 256.
-/

namespace Livox

/-- One decoded input point (`struct LidarPoint` in `bev_pub.rs` /
`livox_scan2.rs`).  The four `f32` fields and the `f64` timestamp are stored
as little-endian bit patterns. -/
structure LidarPoint where
  x : Nat
  y : Nat
  z : Nat
  intensity : Nat
  tag : Nat
  line : Nat
  timestamp : Nat
  deriving DecidableEq, Repr

/-- One projected output point (`struct BevPoint` in `bev_pub.rs`). -/
structure BevPoint where
  x : Nat
  y : Nat
  z : Nat
  intensity : Nat
  tag : Nat
  line : Nat
  timestamp : Nat
  deriving DecidableEq, Repr

/-- The range constraints the Rust field types (`f32`, `u8`, `f64`) impose on
the bit patterns of a `BevPoint`. -/
def BevPoint.WF (p : BevPoint) : Prop :=
  p.x < 2 ^ 32 ∧ p.y < 2 ^ 32 ∧ p.z < 2 ^ 32 ∧ p.intensity < 2 ^ 32 ∧
    p.tag < 256 ∧ p.line < 256 ∧ p.timestamp < 2 ^ 64

/-- Indexing `data[i]` on a byte buffer; in every use below the surrounding
bounds check guarantees `i < data.length`, so the default is never returned
there. -/
def byteAt (data : List Nat) (i : Nat) : Nat :=
  data.getD i 0

/-- Little-endian value of a byte list (`b₀ + 256·b₁ + …`). -/
def leVal : List Nat → Nat
  | [] => 0
  | b :: bs => b + 256 * leVal bs

/-- Rust `f32::from_le_bytes` on the four bytes at `o` (as a bit pattern). -/
def read4 (data : List Nat) (o : Nat) : Nat :=
  leVal [byteAt data o, byteAt data (o + 1), byteAt data (o + 2), byteAt data (o + 3)]

/-- Rust `f64::from_le_bytes` on the eight bytes at `o` (as a bit pattern). -/
def read8 (data : List Nat) (o : Nat) : Nat :=
  leVal [byteAt data o, byteAt data (o + 1), byteAt data (o + 2), byteAt data (o + 3),
    byteAt data (o + 4), byteAt data (o + 5), byteAt data (o + 6), byteAt data (o + 7)]

/-- Decoder `LidarPoint::from_bytes` (`bev_pub.rs` lines 31–82): bounds check
`offset + 26 > data.len()`, then fixed-offset little-endian field reads. -/
def LidarPoint.from_bytes (data : List Nat) (offset : Nat) : Option LidarPoint :=
  if offset + 26 > data.length then
    none
  else
    some
      { x := read4 data offset
        y := read4 data (offset + 4)
        z := read4 data (offset + 8)
        intensity := read4 data (offset + 12)
        tag := byteAt data (offset + 16)
        line := byteAt data (offset + 17)
        timestamp := read8 data (offset + 18) }

/-- Rust `to_le_bytes` on a 32-bit pattern (exact for values below `2^32`). -/
def toLe4 (n : Nat) : List Nat :=
  [n % 256, n / 256 % 256, n / 65536 % 256, n / 16777216 % 256]

/-- Rust `to_le_bytes` on a 64-bit pattern (exact for values below `2^64`). -/
def toLe8 (n : Nat) : List Nat :=
  [n % 256, n / 256 % 256, n / 65536 % 256, n / 16777216 % 256,
    n / 4294967296 % 256, n / 1099511627776 % 256,
    n / 281474976710656 % 256, n / 72057594037927936 % 256]

/-- Encoder `BevPoint::to_bytes` (`bev_pub.rs` lines 98–117): x, y, z, intensity as
little-endian 4-byte floats, then tag and line bytes, then the 8-byte
timestamp — 26 bytes total. -/
def BevPoint.to_bytes (p : BevPoint) : List Nat :=
  toLe4 p.x ++ toLe4 p.y ++ toLe4 p.z ++ toLe4 p.intensity ++
    [p.tag, p.line] ++ toLe8 p.timestamp

/-- Loop body of `parse_pointcloud2` (`bev_pub.rs` lines 124–128 and
`livox_scan2.rs` lines 77–81): `for i in (0..data.len()).step_by(step)`,
pushing each successful `from_bytes` decode.  The `fuel` argument only bounds
the number of iterations; since each iteration advances `i` by `step ≥ 1`,
fuel `data.length` is always enough (`parseLoop_length` below does not depend
on the fuel once it covers the remaining iterations). -/
def parseLoop (data : List Nat) (step : Nat) : Nat → Nat → List LidarPoint
  | 0, _ => []
  | fuel + 1, i =>
    if i < data.length then
      match LidarPoint.from_bytes data i with
      | some p => p :: parseLoop data step fuel (i + step)
      | none => parseLoop data step fuel (i + step)
    else []

/-- Frame decoder `parse_pointcloud2` (`bev_pub.rs` lines 120–131,
`livox_scan2.rs` lines 73–84), taking the buffer and the declared
`point_step`.  Rust's `Iterator::step_by` panics when the step is zero
(documented std behavior); the panic is modelled as `none`.  For a nonzero
step the loop runs to completion and the decoded points are returned. -/
def parse_pointcloud2 (data : List Nat) (point_step : Nat) : Option (List LidarPoint) :=
  if point_step = 0 then none
  else some (parseLoop data point_step data.length 0)

/-! ### IEEE-754 single-precision comparison on bit patterns

The z-window filter and the statistics folds compare `f32` values.  On bit
patterns below `2^32` the IEEE comparison is sign-magnitude: NaN compares
false with everything, the two zeros are equal, and otherwise magnitudes
order the values (reversed for negative sign). -/

/-- NaN test on an `f32` bit pattern: exponent all ones, mantissa nonzero. -/
def f32IsNan (b : Nat) : Bool :=
  b / 2 ^ 23 % 256 == 255 && b % 2 ^ 23 != 0

/-- Magnitude (sign bit stripped) of an `f32` bit pattern. -/
def f32Mag (b : Nat) : Nat :=
  b % 2 ^ 31

/-- Sign bit of an `f32` bit pattern. -/
def f32IsNeg (b : Nat) : Bool :=
  b / 2 ^ 31 % 2 == 1

/-- IEEE-754 `a <= b` on `f32` bit patterns. -/
def f32Le (a b : Nat) : Bool :=
  if f32IsNan a || f32IsNan b then false
  else if f32IsNeg a then
    if f32IsNeg b then f32Mag b ≤ f32Mag a else true
  else
    if f32IsNeg b then f32Mag a == 0 && f32Mag b == 0
    else f32Mag a ≤ f32Mag b

/-- IEEE-754 `a >= b` on `f32` bit patterns. -/
def f32Ge (a b : Nat) : Bool :=
  f32Le b a

/-- Bit pattern of the `f32` literal `-0.1` in the source's z filter. -/
def negPointOneF32 : Nat := 0xBDCCCCCD

/-- Bit pattern of the `f32` literal `0.2` in the source's z filter. -/
def pointTwoF32 : Nat := 0x3E4CCCCD

/-- Projection `LidarPoint::to_bev` (`bev_pub.rs` lines 84–94): copy every
field, force `z` to `0.0` (bit pattern 0). -/
def LidarPoint.to_bev (p : LidarPoint) : BevPoint :=
  { x := p.x
    y := p.y
    z := 0
    intensity := p.intensity
    tag := p.tag
    line := p.line
    timestamp := p.timestamp }

/-- The filter-and-project stage of `process_and_publish_bev` (`bev_pub.rs`
lines 227–231): keep points with `z >= -0.1 && z <= 0.2`, then map each
survivor through `to_bev`. -/
def bevProject (points : List LidarPoint) : List BevPoint :=
  (points.filter fun point => f32Ge point.z negPointOneF32 && f32Le point.z pointTwoF32).map
    LidarPoint.to_bev

/-- One `sensor_msgs::msg::PointField` entry. -/
structure PointField where
  name : String
  offset : Nat
  datatype : Nat
  count : Nat
  deriving DecidableEq, Repr

/-- The `std_msgs::msg::Header` fields used by the pipeline: a timestamp
(copied verbatim) and the frame identifier string. -/
structure Header where
  stamp_sec : Int
  stamp_nanosec : Nat
  frame_id : String
  deriving DecidableEq, Repr

/-- One `sensor_msgs::msg::PointCloud2` message. -/
structure PointCloud2 where
  header : Header
  height : Nat
  width : Nat
  fields : List PointField
  is_bigendian : Bool
  point_step : Nat
  row_step : Nat
  data : List Nat
  is_dense : Bool
  deriving DecidableEq, Repr

/-- Modulus of the `u32` casts `points.len() as u32` and
`(points.len() * 26) as u32` in `create_bev_pointcloud2`. -/
def U32_MOD : Nat := 4294967296

/-- The data-accumulation loop of `create_bev_pointcloud2` (`bev_pub.rs`
lines 196–199): concatenate `to_bytes` of every point in input order. -/
def encodePoints : List BevPoint → List Nat
  | [] => []
  | p :: ps => p.to_bytes ++ encodePoints ps

/-- Frame encoder `create_bev_pointcloud2` (`bev_pub.rs` lines 133–216):
the seven fixed `PointField` entries, the concatenated point bytes, a header
whose `frame_id` gains the `_bev` suffix (`format!` at line 203), and the
metadata constants `height = 1`, `point_step = 26`, `is_dense = true`,
`is_bigendian = false`; `width` and `row_step` go through `as u32` casts. -/
def create_bev_pointcloud2 (points : List BevPoint) (original_header : Header) : PointCloud2 :=
  { header :=
      { original_header with frame_id := original_header.frame_id ++ "_bev" }
    height := 1
    width := points.length % U32_MOD
    fields :=
      [{ name := "x", offset := 0, datatype := 7, count := 1 },
        { name := "y", offset := 4, datatype := 7, count := 1 },
        { name := "z", offset := 8, datatype := 7, count := 1 },
        { name := "intensity", offset := 12, datatype := 7, count := 1 },
        { name := "tag", offset := 16, datatype := 2, count := 1 },
        { name := "line", offset := 17, datatype := 2, count := 1 },
        { name := "timestamp", offset := 18, datatype := 8, count := 1 }]
    is_bigendian := false
    point_step := 26
    row_step := points.length * 26 % U32_MOD
    data := encodePoints points
    is_dense := true }

/-! ### Summary reporter (`livox_scan2.rs`) -/

/-- Bit pattern of `f32::INFINITY`, the seed of the min folds. -/
def f32Inf : Nat := 0x7F800000

/-- Bit pattern of `f32::NEG_INFINITY`, the seed of the max folds. -/
def f32NegInf : Nat := 0xFF800000

/-- Rust `f32::min` on bit patterns: if one argument is NaN the other is
returned, otherwise the smaller value. -/
def f32Min (a b : Nat) : Nat :=
  if f32IsNan a then b
  else if f32IsNan b then a
  else if f32Le b a then b else a

/-- Rust `f32::max` on bit patterns: if one argument is NaN the other is
returned, otherwise the larger value. -/
def f32Max (a b : Nat) : Nat :=
  if f32IsNan a then b
  else if f32IsNan b then a
  else if f32Le a b then b else a

/-- Fold `values.iter().fold(f32::INFINITY, |a, &b| a.min(b))`. -/
def foldMin (values : List Nat) : Nat :=
  values.foldl f32Min f32Inf

/-- Fold `values.iter().fold(f32::NEG_INFINITY, |a, &b| a.max(b))`. -/
def foldMax (values : List Nat) : Nat :=
  values.foldl f32Max f32NegInf

/-- Per-axis minima and maxima printed by the statistics block
(`livox_scan2.rs` lines 132–156). -/
structure AxisStats where
  xMin : Nat
  xMax : Nat
  yMin : Nat
  yMax : Nat
  zMin : Nat
  zMax : Nat
  intensityMin : Nat
  intensityMax : Nat
  deriving DecidableEq, Repr

/-- What `print_point_cloud_summary` surfaces for one decoded sequence. -/
structure Summary where
  totalPoints : Nat
  stats : Option AxisStats
  deriving DecidableEq, Repr

/-- The reporting logic of `print_point_cloud_summary` (`livox_scan2.rs`
lines 95–156) applied to the decoded sequence: the total count is always
reported, while the per-axis min/max folds sit inside the
`if !points.is_empty()` guard (line 99) and are therefore surfaced only for
nonempty input.  (The per-line count table printed in the same guarded block
involves no min/max fold; no claim concerns it.) -/
def summarize (points : List LidarPoint) : Summary :=
  { totalPoints := points.length
    stats :=
      if points.isEmpty then none
      else
        some
          { xMin := foldMin (points.map (·.x))
            xMax := foldMax (points.map (·.x))
            yMin := foldMin (points.map (·.y))
            yMax := foldMax (points.map (·.y))
            zMin := foldMin (points.map (·.z))
            zMax := foldMax (points.map (·.z))
            intensityMin := foldMin (points.map (·.intensity))
            intensityMax := foldMax (points.map (·.intensity)) } }

/-! ### Spec-side definitions

These follow the wording of the specification (field reads as little-endian
values of contiguous sub-slices, the inclusive z window, the constant field
layout), to be compared with the source-derived definitions above. -/

/-- Little-endian value of a byte list, written as the spec's positional sum. -/
def leBytesVal (bs : List Nat) : Nat :=
  bs.foldr (fun b acc => b + 256 * acc) 0

/-- Spec-side field read: the little-endian value of the `w` bytes of `data`
starting at byte offset `o`. -/
def fieldLE (data : List Nat) (o w : Nat) : Nat :=
  leBytesVal ((data.drop o).take w)

/-- Spec-side z-window predicate: `z_min <= z <= z_max` (inclusive both
ends) at the reference window `z_min = -0.1`, `z_max = 0.2`. -/
def inZWindowSpec (p : LidarPoint) : Bool :=
  f32Le negPointOneF32 p.z && f32Le p.z pointTwoF32

/-- Spec-side projection: copy x, y, intensity, tag, line and timestamp
unchanged; set z to exactly `0.0` (bit pattern 0). -/
def toBevSpec (p : LidarPoint) : BevPoint :=
  { x := p.x
    y := p.y
    z := 0
    intensity := p.intensity
    tag := p.tag
    line := p.line
    timestamp := p.timestamp }

/-- Spec-side constant field layout: names x, y, z, intensity, tag, line,
timestamp at offsets 0, 4, 8, 12, 16, 17, 18, scalar type codes
7, 7, 7, 7, 2, 2, 8, element count 1 everywhere. -/
def bevFieldLayoutSpec : List PointField :=
  [{ name := "x", offset := 0, datatype := 7, count := 1 },
    { name := "y", offset := 4, datatype := 7, count := 1 },
    { name := "z", offset := 8, datatype := 7, count := 1 },
    { name := "intensity", offset := 12, datatype := 7, count := 1 },
    { name := "tag", offset := 16, datatype := 2, count := 1 },
    { name := "line", offset := 17, datatype := 2, count := 1 },
    { name := "timestamp", offset := 18, datatype := 8, count := 1 }]

/-- A concrete all-zero point, used for closed instantiations. -/
def zeroBevPoint : BevPoint :=
  { x := 0, y := 0, z := 0, intensity := 0, tag := 0, line := 0, timestamp := 0 }

/-- A concrete header, used for closed instantiations. -/
def sampleHeader : Header :=
  { stamp_sec := 0, stamp_nanosec := 0, frame_id := "livox_frame" }

/-- The concrete end-to-end example record of the spec (§8): x = 1.0,
y = 2.0, z = 0.05, intensity = 100.0, tag = 1, line = 3,
timestamp = 123.456, all as bit patterns. -/
def sampleBevPoint : BevPoint :=
  { x := 0x3F800000
    y := 0x40000000
    z := 0x3D4CCCCD
    intensity := 0x42C80000
    tag := 1
    line := 3
    timestamp := 0x405EDD2F1A9FBE77 }

/-! ### Helper lemmas -/

theorem BevPoint.length_to_bytes (p : BevPoint) : p.to_bytes.length = 26 := by
  simp [BevPoint.to_bytes, toLe4, toLe8]

theorem length_encodePoints (points : List BevPoint) :
    (encodePoints points).length = points.length * 26 := by
  induction points with
  | nil => rfl
  | cons p ps ih =>
    simp [encodePoints, ih, BevPoint.length_to_bytes]
    ring

theorem encodePoints_eq_foldr (points : List BevPoint) :
    encodePoints points = (points.map BevPoint.to_bytes).foldr (· ++ ·) [] := by
  induction points with
  | nil => rfl
  | cons p ps ih => simp [encodePoints, ih]

/-- Invariant of the scan loop: once the fuel covers the remaining
iterations (each iteration advances `i` by `step ≥ 1`, so `data.length - i`
iterations always suffice), the number of decoded records is determined by
how many multiples of `step` leave at least 26 bytes. -/
theorem parseLoop_length (data : List Nat) (step : Nat) (hstep : 1 ≤ step) :
    ∀ fuel i, data.length ≤ i + fuel →
      (parseLoop data step fuel i).length =
        if i + 26 ≤ data.length then (data.length - 26 - i) / step + 1 else 0 := by
  intro fuel
  induction fuel with
  | zero =>
    intro i hfuel
    rw [parseLoop, if_neg (by omega)]
    rfl
  | succ fuel ih =>
    intro i hfuel
    rw [parseLoop]
    by_cases hi : i < data.length
    · rw [if_pos hi, LidarPoint.from_bytes]
      by_cases h26 : i + 26 ≤ data.length
      · rw [if_neg (by omega)]
        simp only [List.length_cons]
        rw [ih (i + step) (by omega), if_pos h26]
        by_cases h2 : i + step + 26 ≤ data.length
        · rw [if_pos h2]
          have h3 : data.length - 26 - (i + step) + step = data.length - 26 - i := by omega
          have h4 : (data.length - 26 - (i + step) + step) / step =
              (data.length - 26 - (i + step)) / step + 1 :=
            Nat.add_div_right _ (by omega)
          rw [h3] at h4
          omega
        · rw [if_neg h2]
          have h5 : data.length - 26 - i < step := by omega
          rw [Nat.div_eq_of_lt h5]
      · rw [if_pos (by omega)]
        rw [ih (i + step) (by omega), if_neg h26, if_neg (by omega)]
    · rw [if_neg hi, if_neg (by omega)]
      rfl

theorem drop_take_map_byteAt (data : List Nat) :
    ∀ (w o : Nat), o + w ≤ data.length →
      (data.drop o).take w = (List.range w).map fun j => byteAt data (o + j) := by
  intro w
  induction w with
  | zero => intro o _; simp
  | succ w ih =>
    intro o h
    have ho : o < data.length := by omega
    rw [List.drop_eq_getElem_cons ho, List.take_succ_cons, List.range_succ_eq_map]
    rw [List.map_cons, List.map_map]
    congr 1
    · rw [byteAt, Nat.add_zero, List.getD_eq_getElem data 0 ho]
    · rw [ih (o + 1) (by omega)]
      apply List.map_congr_left
      intro j hj
      simp [Function.comp]
      congr 1
      omega

theorem fieldLE_eq_read4 (data : List Nat) (o : Nat) (h : o + 4 ≤ data.length) :
    fieldLE data o 4 = read4 data o := by
  rw [fieldLE, drop_take_map_byteAt data 4 o h]
  show leBytesVal [byteAt data (o + 0), byteAt data (o + 1), byteAt data (o + 2),
    byteAt data (o + 3)] = _
  simp [leBytesVal, read4, leVal]

theorem fieldLE_eq_read8 (data : List Nat) (o : Nat) (h : o + 8 ≤ data.length) :
    fieldLE data o 8 = read8 data o := by
  rw [fieldLE, drop_take_map_byteAt data 8 o h]
  show leBytesVal [byteAt data (o + 0), byteAt data (o + 1), byteAt data (o + 2),
    byteAt data (o + 3), byteAt data (o + 4), byteAt data (o + 5), byteAt data (o + 6),
    byteAt data (o + 7)] = _
  simp [leBytesVal, read8, leVal]

theorem fieldLE_eq_byteAt (data : List Nat) (o : Nat) (h : o + 1 ≤ data.length) :
    fieldLE data o 1 = byteAt data o := by
  rw [fieldLE, drop_take_map_byteAt data 1 o h]
  show leBytesVal [byteAt data (o + 0)] = _
  simp [leBytesVal]

theorem width_create_bev (points : List BevPoint) (hdr : Header) :
    (create_bev_pointcloud2 points hdr).width = points.length % U32_MOD :=
  rfl

/-! ### Claim theorems -/

/-- C1.  For every BevRecord `r` (well-formed for the Rust field types),
decoding the 26-byte buffer produced by encoding `r` at offset 0 yields
exactly `r`: `from_bytes (r.to_bytes) 0` returns a record whose x, y, z,
intensity, tag, line and timestamp equal those of `r`. -/
theorem decode_encode_roundtrip (r : BevPoint) (h : r.WF) :
    LidarPoint.from_bytes r.to_bytes 0 =
      some
        { x := r.x, y := r.y, z := r.z, intensity := r.intensity,
          tag := r.tag, line := r.line, timestamp := r.timestamp } := by
  obtain ⟨hx, hy, hz, hi, ht, hl, hts⟩ := h
  simp only [BevPoint.to_bytes, toLe4, toLe8, List.cons_append, List.nil_append]
  rw [LidarPoint.from_bytes]
  simp only [List.length_cons, List.length_nil]
  norm_num
  simp only [read4, read8, byteAt, leVal, List.getD_cons_zero, List.getD_cons_succ,
    true_and, and_true]
  omega

/-- Witness for C1 at the spec's §8 example record. -/
theorem decode_encode_roundtrip_witness :
    sampleBevPoint.WF ∧
      LidarPoint.from_bytes sampleBevPoint.to_bytes 0 =
        some
          { x := sampleBevPoint.x, y := sampleBevPoint.y, z := sampleBevPoint.z,
            intensity := sampleBevPoint.intensity, tag := sampleBevPoint.tag,
            line := sampleBevPoint.line, timestamp := sampleBevPoint.timestamp } :=
  ⟨by unfold BevPoint.WF; decide, decode_encode_roundtrip sampleBevPoint (by unfold BevPoint.WF; decide)⟩

/-- C2, counterexample.  The claim says `decode_frame(buffer, stride)` yields
exactly `⌊buffer.length / stride⌋` records for every stride ≥ 1; on a
26-byte buffer with stride 1 the loop decodes one record (only offset 0
leaves 26 bytes), not 26. -/
theorem decode_frame_count_counterexample :
    ¬ ((parse_pointcloud2 (List.replicate 26 0) 1).map List.length =
        some ((List.replicate 26 (0 : Nat)).length / 1)) := by
  decide

/-- C2, amended.  For every buffer and every stride ≥ 1 the frame decoder
yields 0 records when the buffer is shorter than 26 bytes, and otherwise
exactly `⌊(buffer.length - 26) / stride⌋ + 1` records (every scan offset
that leaves at least 26 bytes); at the declared stride 26 this equals
`⌊buffer.length / 26⌋`. -/
theorem decode_frame_count (data : List Nat) (step : Nat) (hstep : 1 ≤ step) :
    (parse_pointcloud2 data step).map List.length =
      some (if data.length < 26 then 0 else (data.length - 26) / step + 1) := by
  rw [parse_pointcloud2, if_neg (by omega)]
  rw [Option.map_some']
  rw [parseLoop_length data step hstep data.length 0 (by omega)]
  simp only [Nat.zero_add, Nat.sub_zero]
  split_ifs <;> first | rfl | omega

/-- Witness for C2 (amended) on a 53-byte buffer at stride 26: two records. -/
theorem decode_frame_count_witness :
    1 ≤ 26 ∧
      (parse_pointcloud2 (List.replicate 53 0) 26).map List.length =
        some (if (List.replicate 53 (0 : Nat)).length < 26 then 0
          else ((List.replicate 53 (0 : Nat)).length - 26) / 26 + 1) :=
  ⟨by decide, decode_frame_count (List.replicate 53 0) 26 (by decide)⟩

/-- C3.  The BEV projection returns exactly the records whose original z
satisfies `z_min <= z <= z_max` at the reference window `[-0.1, 0.2]`
(inclusive both ends, under IEEE-754 `f32` comparison), in original relative
order, each mapped to a record with z exactly `0.0` and all other fields
copied unchanged. -/
theorem bevProject_filter_correct (points : List LidarPoint) :
    bevProject points = (points.filter inZWindowSpec).map toBevSpec ∧
      ∀ q ∈ bevProject points, q.z = 0 := by
  constructor
  · rfl
  · intro q hq
    simp only [bevProject, List.mem_map] at hq
    obtain ⟨p, _, rfl⟩ := hq
    rfl

/-- C4, counterexample.  The claim says the output width always equals the
record count; the `as u32` cast in `create_bev_pointcloud2` truncates, so a
sequence of `2^32` records reports width 0. -/
theorem encode_frame_cardinality_counterexample :
    ¬ ((create_bev_pointcloud2 (List.replicate (2 ^ 32) zeroBevPoint) sampleHeader).width =
        (List.replicate (2 ^ 32) zeroBevPoint).length) := by
  intro h
  rw [width_create_bev, List.length_replicate] at h
  have h2 : (2 : Nat) ^ 32 % U32_MOD = 0 := by rw [U32_MOD]; norm_num
  rw [h2] at h
  exact absurd h (by norm_num)

/-- C4, amended.  The output buffer is the concatenation of the 26-byte
encodings in input order (length exactly `records.length * 26`), while the
reported width and row stride are `records.length mod 2^32` and
`records.length * 26 mod 2^32` respectively (equal to the untruncated
values whenever they fit in a `u32`). -/
theorem encode_frame_cardinality (points : List BevPoint) (hdr : Header) :
    (create_bev_pointcloud2 points hdr).data.length = points.length * 26 ∧
      (create_bev_pointcloud2 points hdr).data =
        (points.map BevPoint.to_bytes).foldr (· ++ ·) [] ∧
      (create_bev_pointcloud2 points hdr).width = points.length % 2 ^ 32 ∧
      (create_bev_pointcloud2 points hdr).row_step = points.length * 26 % 2 ^ 32 :=
  ⟨length_encodePoints points, encodePoints_eq_foldr points, rfl, rfl⟩

/-- C5.  For every byte buffer and every stride ≥ 1 the frame decoder
terminates normally with a record list (the `none` that models the
`step_by` panic is impossible), and every byte access made by the record
decoder stays within the buffer: a successful decode at `offset` implies
the accessed range `offset..offset+25` lies inside the buffer.  The
remaining core operations (`bevProject`, `create_bev_pointcloud2`,
`summarize`) are total functions of this embedding by construction. -/
theorem core_total_no_panic (data : List Nat) (step : Nat) (hstep : 1 ≤ step) :
    (parse_pointcloud2 data step).isSome = true ∧
      ∀ offset p, LidarPoint.from_bytes data offset = some p →
        offset + 26 ≤ data.length := by
  constructor
  · rw [parse_pointcloud2, if_neg (by omega)]
    rfl
  · intro offset p h
    rw [LidarPoint.from_bytes] at h
    by_cases hb : offset + 26 > data.length
    · rw [if_pos hb] at h
      exact Option.noConfusion h
    · omega

/-- Witness for C5 on a 26-byte buffer at stride 26. -/
theorem core_total_no_panic_witness :
    (parse_pointcloud2 (List.replicate 26 0) 26).isSome = true :=
  (core_total_no_panic (List.replicate 26 0) 26 (by decide)).1

/-- C6.  For every buffer and offset, the record decoder returns no record
exactly when `offset + 26 > buffer.length`, and otherwise the record whose
fields are the little-endian values of the sub-slices at the fixed relative
offsets x:0, y:4, z:8, intensity:12, tag:16, line:17, timestamp:18 (widths
4, 4, 4, 4, 1, 1, 8), with no validation of field values. -/
theorem decode_truncation_layout (data : List Nat) (offset : Nat) :
    LidarPoint.from_bytes data offset =
      if offset + 26 > data.length then none
      else
        some
          { x := fieldLE data offset 4
            y := fieldLE data (offset + 4) 4
            z := fieldLE data (offset + 8) 4
            intensity := fieldLE data (offset + 12) 4
            tag := fieldLE data (offset + 16) 1
            line := fieldLE data (offset + 17) 1
            timestamp := fieldLE data (offset + 18) 8 } := by
  rw [LidarPoint.from_bytes]
  by_cases h : offset + 26 > data.length
  · rw [if_pos h, if_pos h]
  · rw [if_neg h, if_neg h]
    rw [fieldLE_eq_read4 data offset (by omega),
      fieldLE_eq_read4 data (offset + 4) (by omega),
      fieldLE_eq_read4 data (offset + 8) (by omega),
      fieldLE_eq_read4 data (offset + 12) (by omega),
      fieldLE_eq_byteAt data (offset + 16) (by omega),
      fieldLE_eq_byteAt data (offset + 17) (by omega),
      fieldLE_eq_read8 data (offset + 18) (by omega)]

/-- C7.  For every record sequence and source header, the frame encoder
emits height 1, point stride 26, dense true, bigendian false, and derives
the output frame identifier by appending the fixed suffix `_bev` to the
source frame identifier (a pure string transform). -/
theorem encode_frame_metadata_constants (points : List BevPoint) (hdr : Header) :
    (create_bev_pointcloud2 points hdr).height = 1 ∧
      (create_bev_pointcloud2 points hdr).point_step = 26 ∧
      (create_bev_pointcloud2 points hdr).is_dense = true ∧
      (create_bev_pointcloud2 points hdr).is_bigendian = false ∧
      (create_bev_pointcloud2 points hdr).header.frame_id = hdr.frame_id ++ "_bev" :=
  ⟨rfl, rfl, rfl, rfl, rfl⟩

/-- C8.  The field-descriptor sequence produced by the frame encoder is the
constant seven-entry layout (names x, y, z, intensity, tag, line, timestamp
at offsets 0, 4, 8, 12, 16, 17, 18 with type codes 7, 7, 7, 7, 2, 2, 8 and
count 1), independent of the record contents and the header. -/
theorem encode_frame_field_layout (points : List BevPoint) (hdr : Header) :
    (create_bev_pointcloud2 points hdr).fields = bevFieldLayoutSpec :=
  rfl

/-- C9.  Summarizing an empty record sequence yields the explicit no-data
result: total 0 and no statistics block, so no infinity-seeded min/max fold
value is surfaced. -/
theorem summarize_empty_no_data :
    summarize [] = { totalPoints := 0, stats := none } :=
  rfl

/-- C10.  At stride exactly 0 the frame decoder does not return a record
sequence: Rust's `step_by` panics on a zero step, modelled by the `none`
result, for every input buffer. -/
theorem decode_frame_zero_stride_panics (data : List Nat) :
    parse_pointcloud2 data 0 = none :=
  rfl

end Livox
